import Mathlib

/-!
Shallow embedding of `gh_issues.py` (textual-recent-gh-issues): the issue
fetcher, the repo-name resolver, and the pure parts of the terminal UI
controller (row rendering, title truncation, date formatting, and the
open-issue action), together with theorems settling the specification
claims about them.

Python values parsed from JSON are modelled by the inductive `Json`
(numbers as integers: all numeric fields the program consumes are issue
numbers).  External effects (the `gh` and `git` subprocess invocations,
the JSON parse) are modelled by passing their outcome as an explicit
argument; Python exceptions are modelled by `Except` with an explicit
exception type, and the `except` handlers of the source as total
functions on it.
-/

namespace GhIssues

/-- A JSON value as produced by `json.loads`.  Objects are association
lists (a parsed Python dict: keys are distinct); numbers are modelled as
integers. -/
inductive Json where
  | null : Json
  | bool (b : Bool) : Json
  | num (n : Int) : Json
  | str (s : String) : Json
  | arr (items : List Json) : Json
  | obj (fields : List (String × Json)) : Json

instance : Inhabited Json := ⟨Json.null⟩

/-- The `Issue` dataclass (source lines 19-25).  Python dataclasses do not
enforce the annotated field types at runtime, so each field holds whatever
JSON value the fetched entry supplied. -/
structure Issue where
  number : Json
  title : Json
  created_at : Json
  labels : List Json
  url : Json

instance : Inhabited Issue := ⟨⟨Json.null, Json.null, Json.null, [], Json.null⟩⟩

/-- The Python exceptions that can arise inside the `try` block of
`fetch_issues`. -/
inductive PyExc where
  | calledProcessError (returncode : Int) (stderr : String)
  | jsonDecodeError
  | keyError (key : String)
  | typeError (msg : String)
  | attributeError (msg : String)
  | fileNotFoundError (msg : String)
deriving DecidableEq

/-- Outcome of `subprocess.run(["gh", "issue", "list", ...], check=True)`
combined with `json.loads` on its stdout: exit 0 with stdout parsing to a
JSON value (`ok (some j)`); exit 0 with stdout that is not valid JSON
(`ok none`, so `json.loads` raises `JSONDecodeError`); a non-zero exit
(`check=True` raises `CalledProcessError` carrying the stderr text); or
the `gh` executable missing from the system, in which case `subprocess`
raises `FileNotFoundError` with the given message. -/
inductive RunOutcome where
  | ok (parsed : Option Json)
  | calledProcessError (returncode : Int) (stderr : String)
  | fileNotFound (msg : String)

/-- Whether `needle` occurs as a contiguous run somewhere in the
character list: auxiliary scan for the Python substring test. -/
def containsAux (needle : List Char) : List Char → Bool
  | [] => needle.isEmpty
  | c :: rest => needle.isPrefixOf (c :: rest) || containsAux needle rest

/-- Python substring test `needle in hay`. -/
def strContains (hay needle : String) : Bool :=
  containsAux needle.toList hay.toList

/-- Lookup in a parsed Python dict. -/
def dictGet (fields : List (String × Json)) (k : String) : Option Json :=
  (fields.find? (fun p => p.1 == k)).map (fun p => p.2)

/-- The Python type name of a parsed JSON value, as used in exception
messages. -/
def pyTypeName : Json → String
  | .null => "NoneType"
  | .bool _ => "bool"
  | .num _ => "int"
  | .str _ => "str"
  | .arr _ => "list"
  | .obj _ => "dict"

/-- Python iteration `for item in v` over a parsed JSON value: lists yield
their items, dicts yield their keys, strings yield their characters as
one-character strings, and any other value raises `TypeError`. -/
def pyIter : Json → Except PyExc (List Json)
  | .arr items => .ok items
  | .obj fields => .ok (fields.map (fun p => Json.str p.1))
  | .str s => .ok (s.toList.map (fun c => Json.str (String.singleton c)))
  | v => .error (.typeError ("\x27" ++ pyTypeName v ++ "\x27 object is not iterable"))

/-- Python subscription `v["k"]`: dicts look the key up and raise
`KeyError` when it is absent; any other value raises `TypeError`. -/
def pySubscr (v : Json) (k : String) : Except PyExc Json :=
  match v with
  | .obj fields =>
    match dictGet fields k with
    | some w => .ok w
    | none => .error (.keyError k)
  | .str _ => .error (.typeError "string indices must be integers")
  | .arr _ => .error (.typeError "list indices must be integers or slices, not str")
  | v => .error (.typeError ("\x27" ++ pyTypeName v ++ "\x27 object is not subscriptable"))

/-- Python `v.get(k, default)`: dicts return the mapped value or the
default; any other value has no `get` method (`AttributeError`). -/
def pyGetDefault (v : Json) (k : String) (dflt : Json) : Except PyExc Json :=
  match v with
  | .obj fields => .ok ((dictGet fields k).getD dflt)
  | v => .error (.attributeError ("\x27" ++ pyTypeName v ++ "\x27 object has no attribute \x27get\x27"))

/-- The accumulation loop of `fetch_issues` (and the list comprehension
for labels): items are converted left to right and the first exception
aborts the whole computation. -/
def mapExc {α β : Type} (f : α → Except PyExc β) : List α → Except PyExc (List β)
  | [] => .ok []
  | x :: xs =>
    match f x with
    | .error e => .error e
    | .ok y =>
      match mapExc f xs with
      | .error e => .error e
      | .ok ys => .ok (y :: ys)

/-- Conversion of one JSON entry to an `Issue` (source lines 42-50):
`labels = [label["name"] for label in item.get("labels", [])]` followed by
the `Issue(...)` construction reading `number`, `title`, `createdAt` and
`url` by subscription; the first exception aborts the conversion. -/
def convertItem (item : Json) : Except PyExc Issue :=
  match pyGetDefault item "labels" (Json.arr []) with
  | .error e => .error e
  | .ok rawLabels =>
    match pyIter rawLabels with
    | .error e => .error e
    | .ok labelItems =>
      match mapExc (fun l => pySubscr l "name") labelItems with
      | .error e => .error e
      | .ok labels =>
        match pySubscr item "number" with
        | .error e => .error e
        | .ok number =>
          match pySubscr item "title" with
          | .error e => .error e
          | .ok title =>
            match pySubscr item "createdAt" with
            | .error e => .error e
            | .ok createdAt =>
              match pySubscr item "url" with
              | .error e => .error e
              | .ok url =>
                .ok { number := number, title := title, created_at := createdAt,
                      labels := labels, url := url }

/-- The `try` block of `fetch_issues` (source lines 30-52), returning the
issue list or the Python exception that was raised. -/
def fetchIssuesBody (r : RunOutcome) : Except PyExc (List Issue) :=
  match r with
  | .calledProcessError rc stderr => .error (.calledProcessError rc stderr)
  | .fileNotFound msg => .error (.fileNotFoundError msg)
  | .ok none => .error .jsonDecodeError
  | .ok (some j) =>
    match pyIter j with
    | .error e => .error e
    | .ok items => mapExc convertItem items

/-- `str()` of the `CalledProcessError` raised for the fixed `gh` command
line: the command list rendered by Python, the exit status, and a final
period.  (For a negative return code Python reports the signal instead;
the exact signal rendering is elided, no claim depends on it.) -/
def cpeStr (returncode : Int) : String :=
  if returncode < 0 then
    "Command \x27[\x27gh\x27, \x27issue\x27, \x27list\x27, \x27--limit\x27, \x2710\x27, \x27--json\x27, \x27number,title,createdAt,labels,url\x27]\x27 died with signal " ++ toString (-returncode) ++ "."
  else
    "Command \x27[\x27gh\x27, \x27issue\x27, \x27list\x27, \x27--limit\x27, \x2710\x27, \x27--json\x27, \x27number,title,createdAt,labels,url\x27]\x27 returned non-zero exit status " ++ toString returncode ++ "."

/-- `str()` of each modelled Python exception, as interpolated into the
`Unexpected error:` message (`str` of a `KeyError` is the quoted key). -/
def pyExcStr : PyExc → String
  | .calledProcessError rc _ => cpeStr rc
  | .jsonDecodeError => "Expecting value: line 1 column 1 (char 0)"
  | .keyError k => "\x27" ++ k ++ "\x27"
  | .typeError m => m
  | .attributeError m => m
  | .fileNotFoundError m => m

/-- The message raised with `RuntimeError("gh CLI not found...")`. -/
def ghNotFoundMsg : String :=
  "gh CLI not found. Please install GitHub CLI: https://cli.github.com"

/-- The `except` handlers of `fetch_issues` (source lines 54-64), mapping
each Python exception to the message of the `RuntimeError` it is
re-raised as. -/
def handleExc : PyExc → String
  | .calledProcessError rc stderr =>
    if strContains stderr "not a git repository" then "Not in a git repository"
    else if strContains (cpeStr rc) "gh: command not found" then ghNotFoundMsg
    else "Failed to fetch issues: " ++ stderr
  | .jsonDecodeError => "Failed to parse GitHub response"
  | e => "Unexpected error: " ++ pyExcStr e

/-- `fetch_issues` (source lines 28-64): the `try` block with its
handlers; the result is the returned issue list or the `RuntimeError`
message. -/
def fetch_issues (r : RunOutcome) : Except String (List Issue) :=
  (fetchIssuesBody r).mapError handleExc

/-! ### Repo identity resolver -/

/-- Outcome of `subprocess.run(["git", "remote", "get-url", "origin"],
check=True)`: the stdout text on success, or any raised exception (the
bare `except:` in the source catches them all alike). -/
inductive GitOutcome where
  | ok (stdout : String)
  | exc
deriving DecidableEq

/-- Python `str.strip()`: drop leading and trailing whitespace. -/
def pyStrip (s : String) : String :=
  String.mk (((s.toList.dropWhile Char.isWhitespace).reverse.dropWhile Char.isWhitespace).reverse)

/-- Python `str.endswith(suffix)`. -/
def pyEndsWith (s suffix : String) : Bool :=
  suffix.toList.isSuffixOf s.toList

/-- Python slice `s[:-n]`: all but the last `n` code points. -/
def pyDropRight (s : String) (n : Nat) : String :=
  String.mk (s.toList.take (s.toList.length - n))

/-- Python `str.split(sep)` for a one-character separator, on the
character list: splitting the empty string gives one empty part, and
every separator occurrence starts a new part. -/
def splitCharAux (sep : Char) : List Char → List (List Char)
  | [] => [[]]
  | c :: rest =>
    match splitCharAux sep rest with
    | h :: t => if c = sep then [] :: h :: t else (c :: h) :: t
    | [] => [[]]

/-- Python `str.split(sep)` for a one-character separator. -/
def pySplit (s : String) (sep : Char) : List String :=
  (splitCharAux sep s.toList).map String.mk

/-- `url = result.stdout.strip()` followed by stripping a trailing
`.git` (source lines 76-79). -/
def repoUrl (stdout : String) : String :=
  let url := pyStrip stdout
  if pyEndsWith url ".git" then pyDropRight url 4 else url

/-- `parts = url.split("/")` (source line 80). -/
def repoParts (stdout : String) : List String :=
  pySplit (repoUrl stdout) '/'

/-- `get_repo_name` (source lines 67-85): on success take the last two
`/`-separated segments of the cleaned remote URL (`parts[-2]/parts[-1]`,
guarded by `len(parts) >= 2`); on any failure return the fallback. -/
def get_repo_name : GitOutcome → String
  | .exc => "Unknown Repository"
  | .ok stdout =>
    match (repoParts stdout).reverse with
    | last :: prev :: _ => prev ++ "/" ++ last
    | _ => "Unknown Repository"

/-! ### Python rendering helpers used by the UI controller -/

mutual

/-- Python `repr()` of a parsed JSON value (string escape sequences are
not reproduced; the program only ever renders plain label and URL
text). -/
def pyRepr : Json → String
  | .null => "None"
  | .bool b => if b then "True" else "False"
  | .num n => toString n
  | .str s => "\x27" ++ s ++ "\x27"
  | .arr items => "[" ++ pyReprList items ++ "]"
  | .obj fields => "\x7b" ++ pyReprFields fields ++ "\x7d"

/-- Comma-separated `repr`s of list elements. -/
def pyReprList : List Json → String
  | [] => ""
  | [x] => pyRepr x
  | x :: xs => pyRepr x ++ ", " ++ pyReprList xs

/-- Comma-separated `key: value` pairs of a dict `repr`. -/
def pyReprFields : List (String × Json) → String
  | [] => ""
  | [(k, v)] => "\x27" ++ k ++ "\x27: " ++ pyRepr v
  | (k, v) :: fs => "\x27" ++ k ++ "\x27: " ++ pyRepr v ++ ", " ++ pyReprFields fs

end

/-- Python `str()` of a parsed JSON value: strings render as themselves,
every other value as its `repr`. -/
def pyStr : Json → String
  | .str s => s
  | v => pyRepr v

/-- Python `len()` of a string: its number of code points. -/
def pyLen (s : String) : Nat :=
  s.toList.length

/-- Python slice `s[:n]`: the first `n` code points. -/
def pySlice (s : String) (n : Nat) : String :=
  String.mk (s.toList.take n)

/-- Title truncation in `load_issues` (source lines 155-157): titles
longer than 80 characters are cut to their first 77 characters plus
`...`. -/
def truncTitle (t : String) : String :=
  if pyLen t > 80 then pySlice t 77 ++ "..." else t

/-! ### Date formatting

`load_issues` renders `createdAt` with
`datetime.fromisoformat(issue.created_at.replace("Z", "+00:00"))`
followed by `strftime("%Y-%m-%d")`.  `str.replace` and
`datetime.fromisoformat` are Python standard-library primitives; they are
modelled here for the timestamp shapes the program can encounter:
`YYYY-MM-DD`, optionally followed by `T` or a space and a time
`HH:MM[:SS[.f+]]` with an optional `±HH:MM` offset. -/

/-- `created_at.replace("Z", "+00:00")`: Python `str.replace` replaces
every occurrence, and the pattern is the single character `Z`. -/
def pyReplaceZ (s : String) : String :=
  String.mk (s.toList.foldr
    (fun c acc => if c = 'Z' then '+' :: '0' :: '0' :: ':' :: '0' :: '0' :: acc else c :: acc) [])

/-- The date part of a parsed `datetime`; `strftime("%Y-%m-%d")` uses
nothing else. -/
structure PyDateTime where
  year : Nat
  month : Nat
  day : Nat

/-- Two decimal digits as a number, `none` if either character is not a
digit. -/
def digit2 (a b : Char) : Option Nat :=
  if a.isDigit && b.isDigit then some ((a.toNat - 48) * 10 + (b.toNat - 48)) else none

/-- A valid `±HH:MM` UTC offset, or no offset at all. -/
def validOffset : List Char → Bool
  | [] => true
  | sign :: h1 :: h2 :: ':' :: m1 :: m2 :: [] =>
    (sign == '+' || sign == '-') &&
      (match digit2 h1 h2, digit2 m1 m2 with
       | some hh, some mm => decide (hh < 24) && decide (mm < 60)
       | _, _ => false)
  | _ => false

/-- An optional fractional-seconds part followed by a valid offset. -/
def validFracOffset : List Char → Bool
  | '.' :: rest =>
    let frac := rest.takeWhile Char.isDigit
    decide (0 < frac.length) && decide (frac.length ≤ 6) &&
      validOffset (rest.dropWhile Char.isDigit)
  | rest => validOffset rest

/-- An optional `:SS` seconds part followed by fraction and offset. -/
def validSecOffset : List Char → Bool
  | ':' :: s1 :: s2 :: rest =>
    (match digit2 s1 s2 with
     | some ss => decide (ss < 60) && validFracOffset rest
     | none => false)
  | rest => validOffset rest

/-- A valid time-of-day `HH:MM[:SS[.f+]][±HH:MM]`. -/
def validTime : List Char → Bool
  | h1 :: h2 :: ':' :: m1 :: m2 :: rest =>
    (match digit2 h1 h2, digit2 m1 m2 with
     | some hh, some mm => decide (hh < 24) && decide (mm < 60) && validSecOffset rest
     | _, _ => false)
  | _ => false

/-- An empty remainder, or a `T`/space separator followed by a valid
time. -/
def timePartOk : List Char → Bool
  | [] => true
  | sep :: t => (sep == 'T' || sep == ' ') && validTime t

/-- Days in a month of the proleptic Gregorian calendar. -/
def daysInMonth (y m : Nat) : Nat :=
  if m = 2 then (if y % 4 = 0 && (decide (y % 100 ≠ 0) || y % 400 = 0) then 29 else 28)
  else if m = 4 || m = 6 || m = 9 || m = 11 then 30 else 31

/-- Model of `datetime.fromisoformat` (see the section comment): parse
and validate `YYYY-MM-DD` plus an optional time part, keeping the date
fields. -/
def fromisoformat (s : String) : Option PyDateTime :=
  match s.toList with
  | y1 :: y2 :: y3 :: y4 :: '-' :: m1 :: m2 :: '-' :: d1 :: d2 :: rest =>
    match digit2 y1 y2, digit2 y3 y4, digit2 m1 m2, digit2 d1 d2 with
    | some yh, some yl, some mm, some dd =>
      let yy := yh * 100 + yl
      if 1 ≤ mm && mm ≤ 12 && 1 ≤ dd && dd ≤ daysInMonth yy mm && timePartOk rest then
        some ⟨yy, mm, dd⟩
      else none
    | _, _, _, _ => none
  | _ => none

/-- A number zero-padded to two digits. -/
def pad2 (n : Nat) : String :=
  if n < 10 then "0" ++ toString n else toString n

/-- A number zero-padded to four digits. -/
def pad4 (n : Nat) : String :=
  if n < 10 then "000" ++ toString n
  else if n < 100 then "00" ++ toString n
  else if n < 1000 then "0" ++ toString n
  else toString n

/-- `strftime("%Y-%m-%d")`. -/
def formatYmd (d : PyDateTime) : String :=
  pad4 d.year ++ "-" ++ pad2 d.month ++ "-" ++ pad2 d.day

/-- Date rendering in `load_issues` (source lines 148-149): replace `Z`
by `+00:00`, parse, format; `none` models `fromisoformat` raising. -/
def formatDate (createdAt : String) : Option String :=
  (fromisoformat (pyReplaceZ createdAt)).map formatYmd

/-! ### The UI controller's pure core -/

/-- One `DataTable` row: the four cell texts and the optional row key
(`add_row(..., key=...)`). -/
structure Row where
  issueNo : String
  titleText : String
  dateText : String
  labelsText : String
  key : Option String

/-- The string payload of a JSON value, `none` otherwise (a non-string
where Python expects a string raises). -/
def asStr : Json → Option String
  | .str s => some s
  | _ => none

/-- One table row for an issue (source lines 146-165): format the date,
join the labels with a comma and a space (empty string when there are
none), truncate the title, and key the row by the stringified issue
number.  `none` models the uncaught exception the worker would crash with
when a field does not have the expected type. -/
def renderRow (i : Issue) : Option Row := do
  let created ← asStr i.created_at
  let dateStr ← formatDate created
  let labelTexts ← i.labels.mapM asStr
  let labelsText := if i.labels.isEmpty then "" else String.intercalate ", " labelTexts
  let t ← asStr i.title
  some { issueNo := pyStr i.number, titleText := truncTitle t, dateText := dateStr,
         labelsText := labelsText, key := some (pyStr i.number) }

/-- `load_issues` (source lines 134-169): the table rows and the
in-memory issue list after one load, as a function of the fetch outcome.
A `RuntimeError` renders as a single error row with an empty issue list;
an empty fetch renders the single `No issues found` row; otherwise one
row per issue.  `none` models an uncaught rendering exception. -/
def load_issues (res : Except String (List Issue)) : Option (List Row × List Issue) :=
  match res with
  | .error e => some ([{ issueNo := "", titleText := e, dateText := "", labelsText := "", key := none }], [])
  | .ok [] => some ([{ issueNo := "", titleText := "No issues found", dateText := "", labelsText := "", key := none }], [])
  | .ok issues => (issues.mapM renderRow).map (fun rows => (rows, issues))

/-- Severity of a `notify` call (`information` is the default). -/
inductive Severity where
  | information
  | warning
  | error
deriving DecidableEq

/-- One `notify` call: its message and severity. -/
structure Notice where
  message : String
  severity : Severity

/-- The observable outcome of `action_open_issue`: the notifications
posted, in order, and the URL handed to `webbrowser.open` if any. -/
structure OpenOutcome where
  notices : List Notice
  opened : Option Json

/-- `action_open_issue` (source lines 171-197).  `coordStr` is the
rendering of `table.cursor_coordinate`; `keyRes` is the outcome of
`table.coordinate_to_cell_key` inside the `try` block (`Except.error`
models a raised exception, caught and reported as `Failed to open
issue`).  With issues loaded and a row selected, the row key is resolved
against the in-memory list: a hit opens the browser after the debug and
confirmation notices, a miss posts an error notice and opens nothing. -/
def action_open_issue (issues : List Issue) (cursorRow : Int) (coordStr : String)
    (keyRes : Except String String) : OpenOutcome :=
  if issues.isEmpty then ⟨[⟨"No issues loaded", .warning⟩], none⟩
  else if cursorRow < 0 then ⟨[⟨"No row selected", .warning⟩], none⟩
  else
    match keyRes with
    | .error msg => ⟨[⟨"Failed to open issue: " ++ msg, .error⟩], none⟩
    | .ok rowKey =>
      let dbg : Notice :=
        ⟨"Debug: row_key=" ++ rowKey ++ ", cursor_coordinate=" ++ coordStr, .information⟩
      match issues.find? (fun i => pyStr i.number == rowKey) with
      | some issue =>
        ⟨[dbg,
          ⟨"Debug: Found issue #" ++ pyStr issue.number ++ ", URL: " ++ pyStr issue.url, .information⟩,
          ⟨"Opening issue #" ++ pyStr issue.number, .information⟩],
         some issue.url⟩
      | none => ⟨[dbg, ⟨"Could not find issue with key: " ++ rowKey, .error⟩], none⟩

/-! ### Spec-side descriptions

The following definitions follow the specification's words (section 8,
"fields mapped losslessly, labels flattened to names, order preserved"),
to be compared with the source-derived fetcher above. -/

/-- Spec-side: a well-formed label entry is an object carrying a `name`
field. -/
def wellFormedLabel (l : Json) : Bool :=
  match l with
  | .obj fs => (dictGet fs "name").isSome
  | _ => false

/-- Spec-side: a well-formed issue entry is an object with `number`,
`title`, `createdAt` and `url` present whose `labels` field (defaulting
to an empty list) is a list of well-formed labels. -/
def wellFormedEntry (item : Json) : Bool :=
  match item with
  | .obj fields =>
    (dictGet fields "number").isSome && (dictGet fields "title").isSome &&
    (dictGet fields "createdAt").isSome && (dictGet fields "url").isSome &&
    (match (dictGet fields "labels").getD (Json.arr []) with
     | .arr ls => ls.all wellFormedLabel
     | _ => false)
  | _ => false

/-- Spec-side: the `name` field of a label object. -/
def labelName (l : Json) : Json :=
  match l with
  | .obj fs => (dictGet fs "name").getD Json.null
  | _ => Json.null

/-- Spec-side: the `Issue` record a well-formed entry should map to —
`number`, `title`, `createdAt` and `url` copied unchanged, `labels`
flattened to the name fields in order. -/
def specEntry (item : Json) : Issue :=
  match item with
  | .obj fields =>
    { number := (dictGet fields "number").getD Json.null
      title := (dictGet fields "title").getD Json.null
      created_at := (dictGet fields "createdAt").getD Json.null
      labels := (match (dictGet fields "labels").getD (Json.arr []) with
                 | .arr ls => ls.map labelName
                 | _ => [])
      url := (dictGet fields "url").getD Json.null }
  | _ => default

/-! ### Concrete data used by the witnesses -/

/-- An 80-character title. -/
def title80 : String := String.mk (List.replicate 80 'a')

/-- An 81-character title. -/
def title81 : String := String.mk (List.replicate 81 'a')

/-- A concrete fetched issue. -/
def sampleIssue : Issue :=
  { number := Json.num 7, title := Json.str "Fix crash",
    created_at := Json.str "2024-03-05T10:00:00Z", labels := [],
    url := Json.str "https://github.com/acme/widgets/issues/7" }

/-- Two concrete well-formed JSON issue entries. -/
def sampleEntries : List Json :=
  [Json.obj [("number", Json.num 5), ("title", Json.str "Fix crash"),
             ("createdAt", Json.str "2024-03-05T10:00:00Z"),
             ("labels", Json.arr [Json.obj [("name", Json.str "bug")],
                                  Json.obj [("name", Json.str "ui")]]),
             ("url", Json.str "https://github.com/acme/widgets/issues/5")],
   Json.obj [("number", Json.num 6), ("title", Json.str "Add docs"),
             ("createdAt", Json.str "2024-03-06T11:30:00Z"),
             ("labels", Json.arr []),
             ("url", Json.str "https://github.com/acme/widgets/issues/6")]]

/-! ### Helper lemmas -/

/-- When `f` succeeds on every element, the accumulation loop returns the
mapped list. -/
theorem mapExc_congr_ok {α β : Type} (f : α → Except PyExc β) (g : α → β) :
    ∀ l : List α, (∀ x ∈ l, f x = .ok (g x)) → mapExc f l = .ok (l.map g)
  | [], _ => rfl
  | x :: xs, h => by
    have hx := h x (List.mem_cons_self x xs)
    have ih := mapExc_congr_ok f g xs (fun y hy => h y (List.mem_cons_of_mem x hy))
    simp [mapExc, hx, ih]

/-- Python string length is additive over concatenation. -/
theorem pyLen_append (a b : String) : pyLen (a ++ b) = pyLen a + pyLen b := by
  cases a with
  | mk la =>
    cases b with
    | mk lb =>
      show (la ++ lb).length = la.length + lb.length
      exact List.length_append la lb

/-- The length of a Python slice `s[:n]` is `min n (len s)`. -/
theorem pyLen_pySlice (s : String) (n : Nat) : pyLen (pySlice s n) = min n (pyLen s) := by
  show (s.toList.take n).length = min n s.toList.length
  exact List.length_take n s.toList

/-! ### Claim theorems -/

/-- C1: when the `gh` executable is missing, `subprocess.run` raises
`FileNotFoundError`, which is not a `CalledProcessError`; the handler
chain of `fetch_issues` therefore lands in the generic `except Exception`
branch and reports `Unexpected error: [Errno 2] No such file or
directory: 'gh'` — a message that does not even contain the distinct
`gh CLI not found` classification the claim (and the source's own dead
`elif` branch) call for. -/
theorem fetch_issues_gh_missing_misclassified :
    fetch_issues (RunOutcome.fileNotFound "[Errno 2] No such file or directory: \x27gh\x27") =
      Except.error "Unexpected error: [Errno 2] No such file or directory: \x27gh\x27" ∧
    strContains "Unexpected error: [Errno 2] No such file or directory: \x27gh\x27"
      "gh CLI not found" = false :=
  ⟨rfl, by decide⟩

/-- C2 counterexample: on the SSH-form remote URL without a `.git`
suffix, the resolved name keeps the `git@` prefix — it is not
`github.com:acme/widgets` as the claim states. -/
theorem get_repo_name_ssh_counterexample :
    get_repo_name (GitOutcome.ok "git@github.com:acme/widgets") ≠ "github.com:acme/widgets" := by
  decide

/-- C2 (amended): the HTTPS remote URL with a `.git` suffix resolves to
`acme/widgets`; the SSH-form remote URL `git@github.com:acme/widgets`
resolves to `git@github.com:acme/widgets` — stripping a trailing `.git`
and joining the last two `/`-separated segments leaves the whole string,
including the `git@` prefix, since splitting yields exactly two parts. -/
theorem get_repo_name_examples :
    get_repo_name (GitOutcome.ok "https://github.com/acme/widgets.git") = "acme/widgets" ∧
    get_repo_name (GitOutcome.ok "git@github.com:acme/widgets") = "git@github.com:acme/widgets" :=
  ⟨by decide, by decide⟩

/-- C4: whenever the issue-list command exits non-zero with a stderr text
containing the substring `not a git repository`, `fetch_issues` fails
with exactly `Not in a git repository`, whatever else the error stream
holds. -/
theorem fetch_issues_not_git_repo (rc : Int) (stderr : String)
    (h : strContains stderr "not a git repository" = true) :
    fetch_issues (RunOutcome.calledProcessError rc stderr) =
      Except.error "Not in a git repository" := by
  simp [fetch_issues, fetchIssuesBody, Except.mapError, handleExc, h]

/-- Witness for C4 at a concrete git error stream. -/
theorem fetch_issues_not_git_repo_witness :
    fetch_issues (RunOutcome.calledProcessError 1
        "fatal: not a git repository (or any of the parent directories): .git") =
      Except.error "Not in a git repository" :=
  fetch_issues_not_git_repo 1
    "fatal: not a git repository (or any of the parent directories): .git" (by decide)

/-- C5: when the command succeeds but its stdout is not valid JSON,
`fetch_issues` fails with exactly `Failed to parse GitHub response`, and
`load_issues` then shows that message as the sole row and leaves the
in-memory issue list empty. -/
theorem fetch_issues_parse_error_downstream :
    fetch_issues (RunOutcome.ok none) = Except.error "Failed to parse GitHub response" ∧
    load_issues (fetch_issues (RunOutcome.ok none)) =
      some ([{ issueNo := "", titleText := "Failed to parse GitHub response",
               dateText := "", labelsText := "", key := none }], []) :=
  ⟨rfl, rfl⟩

/-- C7: date rendering first normalizes the trailing `Z` UTC marker to
the fixed offset `+00:00` and then formats as `YYYY-MM-DD`; the input
`2024-03-05T10:00:00Z` is displayed as `2024-03-05`, the same as its
normalized form. -/
theorem formatDate_trailing_Z :
    pyReplaceZ "2024-03-05T10:00:00Z" = "2024-03-05T10:00:00+00:00" ∧
    formatDate "2024-03-05T10:00:00Z" = some "2024-03-05" ∧
    formatDate "2024-03-05T10:00:00+00:00" = some "2024-03-05" :=
  ⟨rfl, by decide, by decide⟩

/-- C6: a displayed title equals the original when its length is at most
80 characters, and equals the first 77 characters followed by the
3-character ellipsis — 80 characters in all — when the original is
longer. -/
theorem truncTitle_spec (t : String) :
    (pyLen t ≤ 80 → truncTitle t = t) ∧
    (80 < pyLen t → truncTitle t = pySlice t 77 ++ "..." ∧ pyLen (truncTitle t) = 80) := by
  constructor
  · intro h
    have hn : ¬ pyLen t > 80 := by omega
    simp [truncTitle, hn]
  · intro h
    have ht : truncTitle t = pySlice t 77 ++ "..." := by simp [truncTitle, h]
    refine ⟨ht, ?_⟩
    rw [ht, pyLen_append, pyLen_pySlice]
    have hm : min 77 (pyLen t) = 77 := by omega
    have hd : pyLen "..." = 3 := rfl
    rw [hm, hd]

/-- Witness for C6: an 80-character title is untouched and an
81-character title renders as exactly 80 characters. -/
theorem truncTitle_spec_witness :
    truncTitle title80 = title80 ∧ pyLen (truncTitle title81) = 80 :=
  ⟨(truncTitle_spec title80).1 (by decide), ((truncTitle_spec title81).2 (by decide)).2⟩

/-- C8: `get_repo_name` returns the literal fallback `Unknown
Repository` on every error: when the git invocation raises (command
missing, no remote configured — the bare `except:` catches them all
alike), and when the cleaned URL splits on `/` into fewer than two
segments. -/
theorem get_repo_name_fallback :
    get_repo_name GitOutcome.exc = "Unknown Repository" ∧
    ∀ stdout : String, (repoParts stdout).length < 2 →
      get_repo_name (GitOutcome.ok stdout) = "Unknown Repository" := by
  refine ⟨rfl, fun s h => ?_⟩
  have h2 : (repoParts s).reverse.length < 2 := by
    rw [List.length_reverse]; exact h
  have hg : get_repo_name (GitOutcome.ok s) =
      (match (repoParts s).reverse with
       | last :: prev :: _ => prev ++ "/" ++ last
       | _ => "Unknown Repository") := rfl
  cases hxs : (repoParts s).reverse with
  | nil => rw [hg, hxs]
  | cons a rest =>
    cases rest with
    | nil => rw [hg, hxs]
    | cons b t => rw [hxs] at h2; simp at h2; omega

/-- Witness for C8: a remote URL with no `/` at all yields one segment
and hence the fallback. -/
theorem get_repo_name_fallback_witness :
    get_repo_name (GitOutcome.ok "nopathseparators") = "Unknown Repository" :=
  get_repo_name_fallback.2 "nopathseparators" (by decide)

/-- C9: when issues are loaded, a row is selected, and the selected
row's key matches no issue in the in-memory list, `action_open_issue`
posts the debug notice followed by an error notice and hands no URL to
the browser. -/
theorem open_issue_unknown_key (issues : List Issue) (cursorRow : Int)
    (coordStr rowKey : String)
    (hne : issues ≠ [])
    (hrow : 0 ≤ cursorRow)
    (hmiss : ∀ i ∈ issues, pyStr i.number ≠ rowKey) :
    action_open_issue issues cursorRow coordStr (Except.ok rowKey) =
      ⟨[⟨"Debug: row_key=" ++ rowKey ++ ", cursor_coordinate=" ++ coordStr, Severity.information⟩,
        ⟨"Could not find issue with key: " ++ rowKey, Severity.error⟩], none⟩ := by
  have h1 : issues.isEmpty = false := by
    cases issues with
    | nil => exact absurd rfl hne
    | cons a t => rfl
  have h2 : ¬ cursorRow < 0 := not_lt.mpr hrow
  have h3 : issues.find? (fun i => pyStr i.number == rowKey) = none := by
    rw [List.find?_eq_none]
    intro i hi
    simpa using hmiss i hi
  simp [action_open_issue, h1, h2, h3]

/-- Witness for C9: one loaded issue numbered 7, the cursor on row 0,
and a row key `8` that matches nothing. -/
theorem open_issue_unknown_key_witness :
    action_open_issue [sampleIssue] 0 "Coordinate(row=0, column=0)" (Except.ok "8") =
      ⟨[⟨"Debug: row_key=" ++ "8" ++ ", cursor_coordinate=" ++ "Coordinate(row=0, column=0)",
         Severity.information⟩,
        ⟨"Could not find issue with key: " ++ "8", Severity.error⟩], none⟩ :=
  open_issue_unknown_key [sampleIssue] 0 "Coordinate(row=0, column=0)" "8"
    (by simp) (by norm_num)
    (by
      intro i hi
      simp only [List.mem_singleton] at hi
      subst hi
      simp only [sampleIssue, pyStr, pyRepr]
      decide)

/-- C10: `fetch_issues` either returns an issue list or fails with a
single `RuntimeError` whose message is one of the five classified forms;
no other exception escapes the handler chain — a missing required field
(`KeyError`), a malformed entry (`TypeError`/`AttributeError`) or a
missing executable (`FileNotFoundError`) all surface through the
`Unexpected error:` wrapper. -/
theorem fetch_issues_runtime_error_only (r : RunOutcome) :
    (∃ issues, fetch_issues r = Except.ok issues) ∨
    (∃ msg, fetch_issues r = Except.error msg ∧
      (msg = "Not in a git repository" ∨
       msg = ghNotFoundMsg ∨
       (∃ s, msg = "Failed to fetch issues: " ++ s) ∨
       msg = "Failed to parse GitHub response" ∨
       (∃ s, msg = "Unexpected error: " ++ s))) := by
  unfold fetch_issues
  cases hb : fetchIssuesBody r with
  | ok issues => exact Or.inl ⟨issues, rfl⟩
  | error e =>
    refine Or.inr ⟨handleExc e, rfl, ?_⟩
    cases e with
    | calledProcessError rc stderr =>
      by_cases h1 : strContains stderr "not a git repository" = true
      · exact Or.inl (by simp [handleExc, h1])
      · by_cases h2 : strContains (cpeStr rc) "gh: command not found" = true
        · refine Or.inr (Or.inl ?_)
          simp [handleExc, h1, h2]
        · refine Or.inr (Or.inr (Or.inl ⟨stderr, ?_⟩))
          simp [handleExc, h1, h2]
    | jsonDecodeError => exact Or.inr (Or.inr (Or.inr (Or.inl rfl)))
    | keyError k => exact Or.inr (Or.inr (Or.inr (Or.inr ⟨pyExcStr (.keyError k), rfl⟩)))
    | typeError m => exact Or.inr (Or.inr (Or.inr (Or.inr ⟨pyExcStr (.typeError m), rfl⟩)))
    | attributeError m =>
      exact Or.inr (Or.inr (Or.inr (Or.inr ⟨pyExcStr (.attributeError m), rfl⟩)))
    | fileNotFoundError m =>
      exact Or.inr (Or.inr (Or.inr (Or.inr ⟨pyExcStr (.fileNotFoundError m), rfl⟩)))

/-- A well-formed label converts to exactly its `name` field. -/
theorem pySubscr_wellFormedLabel (l : Json) (h : wellFormedLabel l = true) :
    pySubscr l "name" = .ok (labelName l) := by
  cases l with
  | obj fs =>
    simp only [wellFormedLabel, Option.isSome_iff_exists] at h
    obtain ⟨v, hv⟩ := h
    simp [pySubscr, labelName, hv]
  | null => simp [wellFormedLabel] at h
  | bool b => simp [wellFormedLabel] at h
  | num n => simp [wellFormedLabel] at h
  | str s => simp [wellFormedLabel] at h
  | arr xs => simp [wellFormedLabel] at h

/-- A well-formed entry converts to exactly its spec-side record. -/
theorem convertItem_wellFormed (item : Json) (h : wellFormedEntry item = true) :
    convertItem item = .ok (specEntry item) := by
  cases item with
  | obj fields =>
    simp only [wellFormedEntry, Bool.and_eq_true] at h
    obtain ⟨⟨⟨⟨hnum, htitle⟩, hcreated⟩, hurl⟩, hlabels⟩ := h
    rw [Option.isSome_iff_exists] at hnum htitle hcreated hurl
    obtain ⟨vn, hvn⟩ := hnum
    obtain ⟨vt, hvt⟩ := htitle
    obtain ⟨vc, hvc⟩ := hcreated
    obtain ⟨vu, hvu⟩ := hurl
    cases hl : (dictGet fields "labels").getD (Json.arr []) with
    | arr ls =>
      rw [hl] at hlabels
      have hmap : mapExc (fun l => pySubscr l "name") ls = .ok (ls.map labelName) := by
        apply mapExc_congr_ok
        intro x hx
        apply pySubscr_wellFormedLabel
        rw [List.all_eq_true] at hlabels
        exact hlabels x hx
      have hsn : pySubscr (Json.obj fields) "number" = .ok vn := by simp [pySubscr, hvn]
      have hst : pySubscr (Json.obj fields) "title" = .ok vt := by simp [pySubscr, hvt]
      have hsc : pySubscr (Json.obj fields) "createdAt" = .ok vc := by simp [pySubscr, hvc]
      have hsu : pySubscr (Json.obj fields) "url" = .ok vu := by simp [pySubscr, hvu]
      simp only [convertItem, pyGetDefault, hl, pyIter, hmap, hsn, hst, hsc, hsu]
      simp [specEntry, hl, hvn, hvt, hvc, hvu]
    | null => rw [hl] at hlabels; simp at hlabels
    | bool b => rw [hl] at hlabels; simp at hlabels
    | num n => rw [hl] at hlabels; simp at hlabels
    | str s => rw [hl] at hlabels; simp at hlabels
    | obj fs => rw [hl] at hlabels; simp at hlabels
  | null => simp [wellFormedEntry] at h
  | bool b => simp [wellFormedEntry] at h
  | num n => simp [wellFormedEntry] at h
  | str s => simp [wellFormedEntry] at h
  | arr xs => simp [wellFormedEntry] at h

/-- C3: for every valid JSON array output with at most 10 well-formed
entries, `fetch_issues` returns exactly one `Issue` per entry, in order,
with `number`, `title`, `createdAt` and `url` copied unchanged and the
labels flattened to their `name` fields, order preserved. -/
theorem fetch_issues_wellformed_entries (entries : List Json)
    (hlen : entries.length ≤ 10)
    (hwf : entries.all wellFormedEntry = true) :
    fetch_issues (RunOutcome.ok (some (Json.arr entries))) =
      Except.ok (entries.map specEntry) := by
  have hmap : mapExc convertItem entries = .ok (entries.map specEntry) := by
    apply mapExc_congr_ok
    intro x hx
    apply convertItem_wellFormed
    rw [List.all_eq_true] at hwf
    exact hwf x hx
  simp [fetch_issues, fetchIssuesBody, pyIter, hmap, Except.mapError]

/-- Witness for C3 on two concrete entries with one- and zero-label
lists. -/
theorem fetch_issues_wellformed_entries_witness :
    fetch_issues (RunOutcome.ok (some (Json.arr sampleEntries))) =
      Except.ok (sampleEntries.map specEntry) :=
  fetch_issues_wellformed_entries sampleEntries (by decide) (by decide)

end GhIssues
